import Mathlib

/-!
Verification of the ESP32 water-quality firmware (two variants:
src/src/main.cpp without BLE, src/backup/main_with_ble.cpp with BLE).
The sensor-to-status pipeline is embedded shallowly: exact rational
arithmetic models the float computations of the converter and the
classifier, real arithmetic models the sqrt/sin based parts, and the
control flow of setup and of a sampling cycle is modelled as explicit
data.  Water statuses are modelled as a closed enumeration; the C++
strings map as: "clean" = clean, "unsafe" = dirty, "extremely_unsafe" =
extreme, "vibration_detected" = vibAlert, "unknown" = unknown.
-/

namespace WaterMonitor

/-- The water status values the firmware's `waterStatus` string can hold. -/
inductive WaterStatus where
  | clean
  | dirty
  | extreme
  | vibAlert
  | unknown
deriving DecidableEq, Repr

/-- The source string stored in `waterStatus` for each status value. -/
def statusString : WaterStatus → String
  | WaterStatus.clean => "clean"
  | WaterStatus.dirty => "unsafe"
  | WaterStatus.extreme => "extremely_unsafe"
  | WaterStatus.vibAlert => "vibration_detected"
  | WaterStatus.unknown => "unknown"

/-- Arduino `constrain(x, lo, hi)`: `(x)<(lo)?(lo):((x)>(hi)?(hi):(x))`, over ℚ. -/
def constrainQ (x lo hi : ℚ) : ℚ :=
  if x < lo then lo else if hi < x then hi else x

/-- `const float VREF = 3.3;` (main.cpp line 20). -/
def VREF : ℚ := 3.3

/-- `const int ADC_RES = 4095;` (main.cpp line 21). -/
def ADC_RES : ℕ := 4095

/-- `const float sensorTemperature = 25.0;` (main.cpp line 22). -/
def sensorTemperature : ℚ := 25.0

/-- The TDS conversion of `updateWaterQualityReadings` (main.cpp lines
123-131): voltage from the ADC sample, temperature compensation using the
constant `sensorTemperature`, the cubic polynomial, times 0.5, then
`constrain(tds, 0, 2000)`. -/
def tdsFromAdc (adcValue : ℕ) : ℚ :=
  let voltage : ℚ := (adcValue : ℚ) * VREF / (ADC_RES : ℚ)
  let compensation : ℚ := 1.0 + 0.02 * (sensorTemperature - 25.0)
  let vComp : ℚ := voltage / compensation
  constrainQ ((133.42 * vComp ^ 3 - 255.86 * vComp ^ 2 + 857.39 * vComp) * 0.5) 0 2000

/-- `const float TDSCLEAN_THRESHOLD = 300.0;` (main.cpp line 25). -/
def TDSCLEAN_THRESHOLD : ℚ := 300.0

/-- `const float TDSDIRTY_THRESHOLD = 400.0;` (main.cpp line 26). -/
def TDSDIRTY_THRESHOLD : ℚ := 400.0

/-- `const float TDSXTREME_THRESHOLD = 500.0;` (main.cpp line 27). -/
def TDSXTREME_THRESHOLD : ℚ := 500.0

/-- The water-quality assessment if-chain of `updateWaterQualityReadings`
(main.cpp lines 134-142): when no branch matches, `waterStatus` keeps the
previous cycle's value `prev`. -/
def classify (tds : ℚ) (vibrationDetected : Bool) (prev : WaterStatus) : WaterStatus :=
  if tds ≤ TDSCLEAN_THRESHOLD ∧ vibrationDetected = false then WaterStatus.clean
  else if tds ≤ TDSDIRTY_THRESHOLD ∧ TDSCLEAN_THRESHOLD < tds ∧ vibrationDetected = false then
    WaterStatus.dirty
  else if TDSXTREME_THRESHOLD ≤ tds then WaterStatus.extreme
  else if vibrationDetected = true then WaterStatus.vibAlert
  else prev

/-- `constrainQ` stays within the bounds whenever `lo ≤ hi`. -/
theorem constrainQ_mem (x lo hi : ℚ) (h : lo ≤ hi) :
    lo ≤ constrainQ x lo hi ∧ constrainQ x lo hi ≤ hi := by
  unfold constrainQ
  split_ifs with h1 h2 <;> constructor <;> linarith

/-- The property claimed of the status classifier: the four assignment
rules in priority order, retention of the previous status on the
(400,500)-no-vibration gap, and no fresh assignment of `unknown`. -/
def classifierClaim (tds : ℚ) (vib : Bool) (prev : WaterStatus) : Prop :=
  (tds ≤ 300 → vib = false → classify tds vib prev = WaterStatus.clean) ∧
  (300 < tds → tds ≤ 400 → vib = false → classify tds vib prev = WaterStatus.dirty) ∧
  (500 ≤ tds → classify tds vib prev = WaterStatus.extreme) ∧
  (vib = true → tds < 500 → classify tds vib prev = WaterStatus.vibAlert) ∧
  (400 < tds → tds < 500 → vib = false → classify tds vib prev = prev) ∧
  (classify tds vib prev = WaterStatus.unknown → prev = WaterStatus.unknown)

/-- C1: for every tds in [0, 2000], every vibration flag and every previous
status, the classifier assigns clean, unsafe (`dirty`), extremely_unsafe
(`extreme`, with priority over vibration), vibration_detected (`vibAlert`)
per the stated thresholds, retains the previous status on the (400,500)
gap without vibration, and never reassigns `unknown` afresh. -/
theorem claim1_classifier (tds : ℚ) (h0 : 0 ≤ tds) (h2000 : tds ≤ 2000)
    (vib : Bool) (prev : WaterStatus) : classifierClaim tds vib prev := by
  unfold classifierClaim classify TDSCLEAN_THRESHOLD TDSDIRTY_THRESHOLD TDSXTREME_THRESHOLD
  norm_num
  split_ifs with hA hB hC hD <;>
    refine ⟨?_, ?_, ?_, ?_, ?_, ?_⟩ <;> intros <;>
      first
        | rfl
        | assumption
        | (exfalso; simp_all; try linarith)

/-- Witness for C1 at the gap input tds = 450 with no vibration and
previous status `unknown`. -/
theorem claim1_classifier_witness :
    (0 : ℚ) ≤ 450 ∧ (450 : ℚ) ≤ 2000 ∧ classifierClaim 450 false WaterStatus.unknown :=
  ⟨by norm_num, by norm_num,
    claim1_classifier 450 (by norm_num) (by norm_num) false WaterStatus.unknown⟩

/-- The property claimed of the unit converter at a given ADC sample:
the clamped-polynomial formula over voltage = adc*VREF/adcMax (the
temperature compensation equals 1 at the constant 25 °C), the [0, 2000]
output bounds, and convert(0) = 0. -/
def converterClaim (adcValue : ℕ) : Prop :=
  tdsFromAdc adcValue =
    constrainQ ((133.42 * ((adcValue : ℚ) * 3.3 / 4095) ^ 3
      - 255.86 * ((adcValue : ℚ) * 3.3 / 4095) ^ 2
      + 857.39 * ((adcValue : ℚ) * 3.3 / 4095)) * 0.5) 0 2000 ∧
  0 ≤ tdsFromAdc adcValue ∧ tdsFromAdc adcValue ≤ 2000 ∧
  tdsFromAdc 0 = 0

/-- C2: for every ADC sample in [0, 4095] the converter computes the
temperature-compensated clamped polynomial of the claim, its output lies
in [0, 2000], and it maps 0 to 0. -/
theorem claim2_converter (adcValue : ℕ) (hmax : adcValue ≤ ADC_RES) :
    converterClaim adcValue := by
  unfold converterClaim
  have hb := constrainQ_mem ((133.42 * ((adcValue : ℚ) * VREF / (ADC_RES : ℚ)
      / (1.0 + 0.02 * (sensorTemperature - 25.0))) ^ 3
    - 255.86 * ((adcValue : ℚ) * VREF / (ADC_RES : ℚ)
      / (1.0 + 0.02 * (sensorTemperature - 25.0))) ^ 2
    + 857.39 * ((adcValue : ℚ) * VREF / (ADC_RES : ℚ)
      / (1.0 + 0.02 * (sensorTemperature - 25.0)))) * 0.5) 0 2000 (by norm_num)
  refine ⟨?_, ?_, ?_, ?_⟩
  · unfold tdsFromAdc VREF ADC_RES sensorTemperature
    norm_num
  · exact (by unfold tdsFromAdc; exact hb.1)
  · exact (by unfold tdsFromAdc; exact hb.2)
  · unfold tdsFromAdc constrainQ VREF ADC_RES sensorTemperature
    norm_num

/-- Witness for C2 at the mid-scale sample adcValue = 2048. -/
theorem claim2_converter_witness :
    (2048 : ℕ) ≤ ADC_RES ∧ converterClaim 2048 :=
  ⟨by norm_num [ADC_RES], claim2_converter 2048 (by norm_num [ADC_RES])⟩

/-- `const float VIB_THRESHOLD = 1.5;` (main.cpp line 28). -/
def VIB_THRESHOLD : ℝ := 1.5

/-- `vibration = sqrt(ax*ax + ay*ay + az*az) - 9.8;` (main.cpp line 110). -/
noncomputable def vibrationMagnitude (ax ay az : ℝ) : ℝ :=
  Real.sqrt (ax * ax + ay * ay + az * az) - 9.8

/-- `vibrationDetected = abs(vibration) > VIB_THRESHOLD;` (main.cpp line 111). -/
def vibDetected (ax ay az : ℝ) : Prop :=
  |vibrationMagnitude ax ay az| > VIB_THRESHOLD

/-- C3: the motion analyzer subtracts gravity from the acceleration norm
and flags vibration exactly when the absolute magnitude exceeds 1.5; at
rest (0,0,9.8) the magnitude is 0 with no vibration, and at (0,0,12.0)
the magnitude is 2.2 with vibration flagged. -/
theorem claim3_motion :
    (∀ ax ay az : ℝ, vibDetected ax ay az ↔ |vibrationMagnitude ax ay az| > 1.5) ∧
    vibrationMagnitude 0 0 9.8 = 0 ∧ ¬ vibDetected 0 0 9.8 ∧
    vibrationMagnitude 0 0 12.0 = 2.2 ∧ vibDetected 0 0 12.0 := by
  have h98 : vibrationMagnitude 0 0 9.8 = 0 := by
    unfold vibrationMagnitude
    rw [show (0 : ℝ) * 0 + 0 * 0 + 9.8 * 9.8 = 9.8 ^ 2 by norm_num,
      Real.sqrt_sq (by norm_num : (0 : ℝ) ≤ 9.8)]
    norm_num
  have h12 : vibrationMagnitude 0 0 12.0 = 2.2 := by
    unfold vibrationMagnitude
    rw [show (0 : ℝ) * 0 + 0 * 0 + 12.0 * 12.0 = 12 ^ 2 by norm_num,
      Real.sqrt_sq (by norm_num : (0 : ℝ) ≤ 12)]
    norm_num
  refine ⟨fun ax ay az => Iff.rfl, h98, ?_, h12, ?_⟩
  · unfold vibDetected VIB_THRESHOLD
    rw [h98]
    norm_num
  · unfold vibDetected VIB_THRESHOLD
    rw [h12, abs_of_nonneg (by norm_num : (0 : ℝ) ≤ 2.2)]
    norm_num

/-- Arduino `constrain` over ℝ. -/
noncomputable def constrainR (x lo hi : ℝ) : ℝ :=
  if x < lo then lo else if hi < x then hi else x

/-- `constrainR` stays within the bounds whenever `lo ≤ hi`. -/
theorem constrainR_mem (x lo hi : ℝ) (h : lo ≤ hi) :
    lo ≤ constrainR x lo hi ∧ constrainR x lo hi ≤ hi := by
  unfold constrainR
  split_ifs with h1 h2 <;> constructor <;> linarith

/-- `pH = 7.0 + (sin(millis() / 15000.0) * 0.8) + (random(-10, 10) / 100.0);`
then `pH = constrain(pH, 6.0, 9.0);` (main.cpp lines 163, 166); the Arduino
random(-10, 10) draw is an integer in [-10, 9]. -/
noncomputable def simulatedPH (tMs : ℝ) (randP : ℤ) : ℝ :=
  constrainR (7.0 + Real.sin (tMs / 15000.0) * 0.8 + (randP : ℝ) / 100.0) 6.0 9.0

/-- `turbidity = 2.0 + (sin(millis() / 18000.0) * 1.5) + (random(-30, 30) / 100.0);`
then `turbidity = constrain(turbidity, 0.1, 10.0);` (main.cpp lines 164, 167). -/
noncomputable def simulatedTurbidity (tMs : ℝ) (randT : ℤ) : ℝ :=
  constrainR (2.0 + Real.sin (tMs / 18000.0) * 1.5 + (randT : ℝ) / 100.0) 0.1 10.0

/-- The property claimed of the synthetic signal generator at time tMs
with jitter draws randP, randT: the clamp formulas of the claim and the
permanent [6,9] and [0.1,10] bounds; the jitters lie in the stated
uniform ranges. -/
def syntheticClaim (tMs : ℝ) (randP randT : ℤ) : Prop :=
  (-(0.10 : ℝ) ≤ (randP : ℝ) / 100.0 ∧ ((randP : ℝ) / 100.0 : ℝ) ≤ 0.10) ∧
  (-(0.30 : ℝ) ≤ (randT : ℝ) / 100.0 ∧ ((randT : ℝ) / 100.0 : ℝ) ≤ 0.30) ∧
  simulatedPH tMs randP =
    constrainR (7.0 + 0.8 * Real.sin (tMs / 15000.0) + (randP : ℝ) / 100.0) 6.0 9.0 ∧
  simulatedTurbidity tMs randT =
    constrainR (2.0 + 1.5 * Real.sin (tMs / 18000.0) + (randT : ℝ) / 100.0) 0.1 10.0 ∧
  (6.0 ≤ simulatedPH tMs randP ∧ simulatedPH tMs randP ≤ 9.0) ∧
  (0.1 ≤ simulatedTurbidity tMs randT ∧ simulatedTurbidity tMs randT ≤ 10.0)

/-- C5: for every elapsed time and every jitter draw from the generator's
ranges, pH and turbidity follow the clamped sine formulas and never leave
[6.0, 9.0] and [0.1, 10.0]. -/
theorem claim5_synthetic (tMs : ℝ) (randP randT : ℤ)
    (hp1 : -10 ≤ randP) (hp2 : randP < 10)
    (ht1 : -30 ≤ randT) (ht2 : randT < 30) :
    syntheticClaim tMs randP randT := by
  have hpR : (-10 : ℝ) ≤ (randP : ℝ) ∧ ((randP : ℝ) : ℝ) ≤ 10 := by
    constructor <;> [exact_mod_cast hp1; exact_mod_cast hp2.le]
  have htR : (-30 : ℝ) ≤ (randT : ℝ) ∧ ((randT : ℝ) : ℝ) ≤ 30 := by
    constructor <;> [exact_mod_cast ht1; exact_mod_cast ht2.le]
  refine ⟨⟨by linarith [hpR.1], by linarith [hpR.2]⟩,
    ⟨by linarith [htR.1], by linarith [htR.2]⟩, ?_, ?_, ?_, ?_⟩
  · unfold simulatedPH
    ring_nf
  · unfold simulatedTurbidity
    ring_nf
  · exact (by unfold simulatedPH; exact constrainR_mem _ _ _ (by norm_num))
  · exact (by unfold simulatedTurbidity; exact constrainR_mem _ _ _ (by norm_num))

/-- Witness for C5 at time 0 with zero jitter. -/
theorem claim5_synthetic_witness :
    (-10 : ℤ) ≤ 0 ∧ (0 : ℤ) < 10 ∧ (-30 : ℤ) ≤ 0 ∧ (0 : ℤ) < 30 ∧
    syntheticClaim 0 0 0 :=
  ⟨by norm_num, by norm_num, by norm_num, by norm_num,
    claim5_synthetic 0 0 0 (by norm_num) (by norm_num) (by norm_num) (by norm_num)⟩

/-- The three LED channels. -/
inductive LedChannel where
  | green
  | yellow
  | red
deriving DecidableEq, Repr

/-- Instantaneous pin levels of the three LEDs. -/
structure LedPins where
  green : Bool
  yellow : Bool
  red : Bool
deriving DecidableEq, Repr

/-- The LED block of `updateWaterQualityReadings` (main.cpp lines 144-160):
all pins are first driven LOW, then the branch matching the current status
drives one pin HIGH; for `vibAlert` the yellow pin is driven with
`(millis() / 500) % 2`, and for `unknown` no branch matches so every pin
stays LOW. -/
def ledPins (status : WaterStatus) (tMs : ℕ) : LedPins :=
  match status with
  | WaterStatus.clean => ⟨true, false, false⟩
  | WaterStatus.dirty => ⟨false, true, false⟩
  | WaterStatus.extreme => ⟨false, false, true⟩
  | WaterStatus.vibAlert => ⟨false, decide (tMs / 500 % 2 = 1), false⟩
  | WaterStatus.unknown => ⟨false, false, false⟩

/-- The pin level of one channel. -/
def pinOf (c : LedChannel) (p : LedPins) : Bool :=
  match c with
  | LedChannel.green => p.green
  | LedChannel.yellow => p.yellow
  | LedChannel.red => p.red

/-- How many pins are driven HIGH at one instant. -/
def onCount (p : LedPins) : ℕ :=
  (if p.green then 1 else 0) + (if p.yellow then 1 else 0) + (if p.red then 1 else 0)

/-- A channel is on or blinking under a status when its pin is HIGH at
some instant. -/
def ledActive (status : WaterStatus) (c : LedChannel) : Prop :=
  ∃ tMs : ℕ, pinOf c (ledPins status tMs) = true

/-- C4 counterexample: under the `unknown` status (reachable after a
sampling cycle, e.g. the first cycle with tds in (400,500) and no
vibration) every pin stays LOW forever, so no channel is on or blinking
and the claimed "exactly one LED channel for every waterStatus" fails. -/
theorem claim4_led_counterexample :
    (∀ tMs : ℕ, ledPins WaterStatus.unknown tMs = ⟨false, false, false⟩) ∧
    ¬ (∃! c : LedChannel, ledActive WaterStatus.unknown c) := by
  constructor
  · intro t
    rfl
  · rintro ⟨c, ⟨t, hc⟩, -⟩
    cases c <;> simp [pinOf, ledPins] at hc

/-- C4 amended: at every instant at most one pin is HIGH; for every
status other than `unknown` exactly one channel is on or blinking with
the others off; under `unknown` every channel is off. -/
theorem claim4_led (s : WaterStatus) (tMs : ℕ) :
    onCount (ledPins s tMs) ≤ 1 ∧
    (s ≠ WaterStatus.unknown → ∃! c : LedChannel, ledActive s c) ∧
    (∀ c : LedChannel, ¬ ledActive WaterStatus.unknown c) := by
  refine ⟨?_, ?_, ?_⟩
  · cases s <;> simp [ledPins, onCount] <;> split_ifs <;> norm_num
  · intro hs
    cases s with
    | clean =>
        refine ⟨LedChannel.green, ⟨0, rfl⟩, ?_⟩
        rintro c ⟨t, ht⟩
        cases c
        · rfl
        · simp [pinOf, ledPins] at ht
        · simp [pinOf, ledPins] at ht
    | dirty =>
        refine ⟨LedChannel.yellow, ⟨0, rfl⟩, ?_⟩
        rintro c ⟨t, ht⟩
        cases c
        · simp [pinOf, ledPins] at ht
        · rfl
        · simp [pinOf, ledPins] at ht
    | extreme =>
        refine ⟨LedChannel.red, ⟨0, rfl⟩, ?_⟩
        rintro c ⟨t, ht⟩
        cases c
        · simp [pinOf, ledPins] at ht
        · simp [pinOf, ledPins] at ht
        · rfl
    | vibAlert =>
        refine ⟨LedChannel.yellow, ⟨500, rfl⟩, ?_⟩
        rintro c ⟨t, ht⟩
        cases c
        · simp [pinOf, ledPins] at ht
        · rfl
        · simp [pinOf, ledPins] at ht
    | unknown => exact absurd rfl hs
  · rintro c ⟨t, ht⟩
    cases c <;> simp [pinOf, ledPins] at ht

/-- Witness for C4 amended at status `clean`, instant 0. -/
theorem claim4_led_witness :
    WaterStatus.clean ≠ WaterStatus.unknown ∧
    (∃! c : LedChannel, ledActive WaterStatus.clean c) :=
  ⟨by decide, (claim4_led WaterStatus.clean 0).2.1 (by decide)⟩

/-- The property claimed of the yellow blink drive: within the 500 ms
window 500k..500k+499 the yellow pin is constant, HIGH exactly on odd
windows; it toggles every 500 ms; green and red stay LOW under
`vibAlert`; and under the startup `unknown` status every pin is LOW. -/
def blinkClaim (k r tMs : ℕ) : Prop :=
  (ledPins WaterStatus.vibAlert (500 * k + r)).yellow = decide (k % 2 = 1) ∧
  (ledPins WaterStatus.vibAlert (tMs + 500)).yellow
    = !(ledPins WaterStatus.vibAlert tMs).yellow ∧
  (ledPins WaterStatus.vibAlert tMs).green = false ∧
  (ledPins WaterStatus.vibAlert tMs).red = false ∧
  ledPins WaterStatus.unknown tMs = ⟨false, false, false⟩

/-- C8: under `vibration_detected` the yellow drive computed from the
millisecond clock alternates 500 ms LOW and 500 ms HIGH (1 Hz blink),
no other pin is driven, and statuses with no LED branch (the startup
`unknown`) leave all LEDs off. -/
theorem claim8_blink (k r tMs : ℕ) (hr : r < 500) : blinkClaim k r tMs := by
  refine ⟨?_, ?_, rfl, rfl, rfl⟩
  · have h1 : (500 * k + r) / 500 = k := by
      rw [Nat.mul_add_div (by norm_num), Nat.div_eq_of_lt hr]
      omega
    simp [ledPins, h1]
  · have h2 : (tMs + 500) / 500 = tMs / 500 + 1 :=
      Nat.add_div_right tMs (by norm_num)
    rcases Nat.mod_two_eq_zero_or_one (tMs / 500) with h | h <;>
      simp [ledPins, h2, Nat.add_mod, h]

/-- Witness for C8 with window k = 1, offset r = 0, instant 0. -/
theorem claim8_blink_witness : (0 : ℕ) < 500 ∧ blinkClaim 1 0 0 :=
  ⟨by norm_num, claim8_blink 1 0 0 (by norm_num)⟩

/-- Result of the MPU6050 block of a non-BLE sampling cycle. -/
structure MotionOut where
  vibration : ℚ
  vibrationDetected : Bool
  temperature : ℚ
  fromSensor : Bool
deriving DecidableEq, Repr

/-- The MPU6050 block of the non-BLE `updateWaterQualityReadings`
(main.cpp lines 100-120): the cycle re-invokes `mpu.begin()`; on success
it uses the live accelerometer vibration magnitude, flag and on-die
temperature (passed in as realVib/realDet/realTemp, produced by the
motion analyzer of C3); otherwise it substitutes
`random(-50, 50) / 100.0` (an integer draw in [-50, 49]), forces the
flag false and takes `22.0 + random(-30, 30) / 10.0`. -/
def motionStep (beginOK : Bool) (realVib : ℚ) (realDet : Bool) (realTemp : ℚ)
    (randVib randTemp : ℤ) : MotionOut :=
  if beginOK then ⟨realVib, realDet, realTemp, true⟩
  else ⟨(randVib : ℚ) / 100.0, false, 22.0 + (randTemp : ℚ) / 10.0, false⟩

/-- Per-cycle inputs of a non-BLE sampling cycle that come from outside
the pipeline: the fresh `mpu.begin()` result, the live motion readings,
the two fallback random draws and the ADC sample. -/
structure CycleEnv where
  beginOK : Bool
  realVib : ℚ
  realDet : Bool
  realTemp : ℚ
  randVib : ℤ
  randTemp : ℤ
  adc : ℕ
deriving DecidableEq, Repr

/-- Observable result of one non-BLE sampling cycle. -/
structure CycleOut where
  motion : MotionOut
  tds : ℚ
  waterStatus : WaterStatus
  leds : LedPins
deriving DecidableEq, Repr

/-- One non-BLE sampling cycle (main.cpp lines 99-160): motion block,
TDS conversion, status assessment against the previous status, LED drive. -/
def nonBleCycle (e : CycleEnv) (prev : WaterStatus) (tMs : ℕ) : CycleOut :=
  let m := motionStep e.beginOK e.realVib e.realDet e.realTemp e.randVib e.randTemp
  let t := tdsFromAdc e.adc
  let st := classify t m.vibrationDetected prev
  ⟨m, t, st, ledPins st tMs⟩

/-- The property claimed of the motion-sensor fallback of a cycle: the
substituted vibration lies in [-0.5, 0.5], the flag is forced false, the
substituted temperature is 22.0 plus a jitter in [-3, 3], and the cycle
still runs the TDS conversion, classification and LED drive. -/
def fallbackClaim (e : CycleEnv) (prev : WaterStatus) (tMs : ℕ) : Prop :=
  (-(1/2 : ℚ) ≤ (nonBleCycle e prev tMs).motion.vibration ∧
    (nonBleCycle e prev tMs).motion.vibration ≤ 1/2) ∧
  (nonBleCycle e prev tMs).motion.vibrationDetected = false ∧
  (∃ j : ℚ, (nonBleCycle e prev tMs).motion.temperature = 22.0 + j ∧
    -3 ≤ j ∧ j ≤ 3) ∧
  (nonBleCycle e prev tMs).tds = tdsFromAdc e.adc ∧
  (nonBleCycle e prev tMs).waterStatus = classify (tdsFromAdc e.adc) false prev ∧
  (nonBleCycle e prev tMs).leds = ledPins (classify (tdsFromAdc e.adc) false prev) tMs

/-- C7: in the non-BLE variant, when `mpu.begin()` fails in a cycle, the
cycle substitutes a bounded pseudo-random vibration in [-0.5, 0.5],
forces vibrationDetected false, substitutes temperature 22.0 plus a
jitter within [-3, 3] °C, and proceeds with the rest of the pipeline. -/
theorem claim7_fallback (e : CycleEnv) (prev : WaterStatus) (tMs : ℕ)
    (hb : e.beginOK = false)
    (hv1 : -50 ≤ e.randVib) (hv2 : e.randVib < 50)
    (ht1 : -30 ≤ e.randTemp) (ht2 : e.randTemp < 30) :
    fallbackClaim e prev tMs := by
  have hvQ1 : (-50 : ℚ) ≤ (e.randVib : ℚ) := by exact_mod_cast hv1
  have hvQ2 : ((e.randVib : ℚ) : ℚ) ≤ 49 := by
    have : e.randVib ≤ 49 := by omega
    exact_mod_cast this
  have htQ1 : (-30 : ℚ) ≤ (e.randTemp : ℚ) := by exact_mod_cast ht1
  have htQ2 : ((e.randTemp : ℚ) : ℚ) ≤ 29 := by
    have : e.randTemp ≤ 29 := by omega
    exact_mod_cast this
  unfold fallbackClaim nonBleCycle motionStep
  rw [hb]
  refine ⟨⟨by norm_num; linarith, by norm_num; linarith⟩, rfl,
    ⟨(e.randTemp : ℚ) / 10.0, rfl, by norm_num; linarith, by norm_num; linarith⟩,
    rfl, rfl, rfl⟩

/-- Witness for C7: a cycle whose `mpu.begin()` fails, with zero random
draws, previous status `unknown`, instant 0, ADC sample 0. -/
theorem claim7_fallback_witness :
    (CycleEnv.mk false 0 false 0 0 0 0).beginOK = false ∧
    (-50 : ℤ) ≤ (CycleEnv.mk false 0 false 0 0 0 0).randVib ∧
    (CycleEnv.mk false 0 false 0 0 0 0).randVib < 50 ∧
    (-30 : ℤ) ≤ (CycleEnv.mk false 0 false 0 0 0 0).randTemp ∧
    (CycleEnv.mk false 0 false 0 0 0 0).randTemp < 30 ∧
    fallbackClaim (CycleEnv.mk false 0 false 0 0 0 0) WaterStatus.unknown 0 :=
  ⟨rfl, by decide, by decide, by decide, by decide,
    claim7_fallback (CycleEnv.mk false 0 false 0 0 0 0) WaterStatus.unknown 0
      rfl (by decide) (by decide) (by decide) (by decide)⟩

/-- Calls made on the MPU driver object. -/
inductive MpuCall where
  | begin
  | setRange
  | setBandwidth
  | getEvent
deriving DecidableEq, Repr

/-- The MPU calls a non-BLE sampling cycle makes (main.cpp lines
100-120): `mpu.begin()` is re-invoked, then `getEvent` when it succeeds;
the configuration setters are never called during a cycle. -/
def cycleMpuCalls (beginOK : Bool) : List MpuCall :=
  if beginOK then [MpuCall.begin, MpuCall.getEvent] else [MpuCall.begin]

/-- The MPU calls the non-BLE `setup` makes (main.cpp lines 62-78):
`begin`, then on success `setAccelerometerRange` and
`setFilterBandwidth`. -/
def setupMpuCalls (found : Bool) : List MpuCall :=
  if found then [MpuCall.begin, MpuCall.setRange, MpuCall.setBandwidth]
  else [MpuCall.begin]

/-- C10: each non-BLE cycle decides between real telemetry and fallback
afresh by re-invoking `mpu.begin()` — the real readings are used exactly
when that cycle's call succeeds, so startup availability is not latched —
and a cycle re-initializes the sensor without reapplying the range and
bandwidth configuration that `setup` applies on success. -/
theorem claim10_reinit (e : CycleEnv) (prev : WaterStatus) (tMs : ℕ) :
    ((nonBleCycle e prev tMs).motion.fromSensor = e.beginOK) ∧
    (e.beginOK = true →
      (nonBleCycle e prev tMs).motion =
        MotionOut.mk e.realVib e.realDet e.realTemp true) ∧
    MpuCall.begin ∈ cycleMpuCalls e.beginOK ∧
    MpuCall.setRange ∉ cycleMpuCalls e.beginOK ∧
    MpuCall.setBandwidth ∉ cycleMpuCalls e.beginOK ∧
    MpuCall.setRange ∈ setupMpuCalls true ∧
    MpuCall.setBandwidth ∈ setupMpuCalls true := by
  cases hb : e.beginOK <;>
    simp [nonBleCycle, motionStep, hb, cycleMpuCalls, setupMpuCalls]

/-- Witness for C10 in a cycle whose `mpu.begin()` succeeds: the live
readings are the ones used. -/
theorem claim10_reinit_witness :
    (CycleEnv.mk true 1 true 30 0 0 2048).beginOK = true ∧
    (nonBleCycle (CycleEnv.mk true 1 true 30 0 0 2048) WaterStatus.unknown 0).motion =
      MotionOut.mk 1 true 30 true :=
  ⟨rfl,
    (claim10_reinit (CycleEnv.mk true 1 true 30 0 0 2048) WaterStatus.unknown 0).2.1 rfl⟩

/-- Whether the program reaches the sampling loop after `setup`. -/
inductive SetupOutcome where
  | halted
  | running
deriving DecidableEq, Repr

/-- Observable `setup` behavior as a function of whether the MPU6050 is
found: the red LED error flash count and whether the program halts. -/
structure SetupResult where
  redFlashes : ℕ
  outcome : SetupOutcome
deriving DecidableEq, Repr

/-- The BLE variant's `setup` (main_with_ble.cpp lines 110-123): if the
MPU6050 is not found, flash the red LED five times and then spin in
`while (1)` forever; otherwise proceed. -/
def bleSetup (mpuFound : Bool) : SetupResult :=
  if mpuFound then ⟨0, SetupOutcome.running⟩ else ⟨5, SetupOutcome.halted⟩

/-- The non-BLE variant's `setup` (main.cpp lines 64-78): if the MPU6050
is not found, flash the red LED five times, log, and continue to the
sampling loop anyway. -/
def nonBleSetup (mpuFound : Bool) : SetupResult :=
  if mpuFound then ⟨0, SetupOutcome.running⟩ else ⟨5, SetupOutcome.running⟩

/-- How many of n loop turns run a sampling cycle after setup: none when
setup halted, all of them otherwise. -/
def cyclesRun (o : SetupOutcome) (n : ℕ) : ℕ :=
  match o with
  | SetupOutcome.halted => 0
  | SetupOutcome.running => n

/-- C9: with the motion sensor missing at startup, the BLE variant
flashes the red LED five times and halts, never running a sampling
cycle, while the non-BLE variant emits the same five flashes and keeps
running cycles indefinitely. -/
theorem claim9_startup (n : ℕ) :
    bleSetup false = SetupResult.mk 5 SetupOutcome.halted ∧
    cyclesRun (bleSetup false).outcome n = 0 ∧
    nonBleSetup false = SetupResult.mk 5 SetupOutcome.running ∧
    cyclesRun (nonBleSetup false).outcome n = n ∧
    (nonBleSetup false).redFlashes = (bleSetup false).redFlashes :=
  ⟨rfl, rfl, rfl, rfl, rfl⟩

/-- The decimal digits of n mod 10^d, exactly d characters, most
significant first: the digit run a fixed-width decimal print emits after
the point. -/
def padDigits : ℕ → ℕ → List Char
  | _, 0 => []
  | n, d + 1 => padDigits (n / 10) d ++ [Char.ofNat (48 + n % 10)]

/-- Arduino `String(x, d)` on a float value: the value printed with
exactly d digits after the decimal point, idealized over ℚ with rounding
to nearest at the last digit. -/
def fmtFixed (q : ℚ) (d : ℕ) : String :=
  let n : ℕ := (round (|q| * (10 : ℚ) ^ d)).toNat
  (if q < 0 then "-" else "") ++ toString (n / 10 ^ d) ++ "." ++ String.mk (padDigits n d)

/-- JSON string quoting as the firmware emits it (the serialized values
contain no quotes, so no escaping). -/
def quoteStr (s : String) : String := "\"" ++ s ++ "\""

/-- Render key/value pairs as the body of a JSON object: keys quoted, a
colon, the already-rendered value, comma separated. -/
def renderFields : List (String × String) → String
  | [] => ""
  | [kv] => "\"" ++ kv.1 ++ "\":" ++ kv.2
  | kv :: rest => "\"" ++ kv.1 ++ "\":" ++ kv.2 ++ "," ++ renderFields rest

/-- Render key/value pairs as a JSON object. -/
def renderObj (fs : List (String × String)) : String :=
  "\x7b" ++ renderFields fs ++ "\x7d"

/-- The process-wide reading state serialized by the BLE variant. -/
structure Reading where
  pH : ℚ
  temperature : ℚ
  tds : ℚ
  turbidity : ℚ
  vibration : ℚ
  vibrationDetected : Bool
  waterStatus : WaterStatus

/-- `generateWaterQualityJSON` (main_with_ble.cpp lines 275-289), one
Lean append per C++ `+=` concatenation. -/
def generateWaterQualityJSON (r : Reading) (tMs : ℕ) : String :=
  "\x7b"
    ++ ("\"pH\":" ++ fmtFixed r.pH 2 ++ ",")
    ++ ("\"temperature\":" ++ fmtFixed r.temperature 1 ++ ",")
    ++ ("\"tds\":" ++ fmtFixed r.tds 1 ++ ",")
    ++ ("\"turbidity\":" ++ fmtFixed r.turbidity 2 ++ ",")
    ++ ("\"vibration\":" ++ fmtFixed r.vibration 2 ++ ",")
    ++ ("\"vibrationDetected\":" ++ (if r.vibrationDetected then "true" else "false") ++ ",")
    ++ ("\"waterStatus\":\"" ++ statusString r.waterStatus ++ "\",")
    ++ ("\"timestamp\":\"" ++ toString tMs ++ "\",")
    ++ "\"deviceId\":\"ESP32-WaterSensor\","
    ++ "\"status\":\"active\""
    ++ "\x7d"

/-- The wire record as the spec words it: the ten fields in exactly this
order, numeric fields with the stated decimal precision, the boolean
bare, the strings quoted, the fixed deviceId and the fixed "active"
status. -/
def wireFields (r : Reading) (tMs : ℕ) : List (String × String) :=
  [("pH", fmtFixed r.pH 2),
   ("temperature", fmtFixed r.temperature 1),
   ("tds", fmtFixed r.tds 1),
   ("turbidity", fmtFixed r.turbidity 2),
   ("vibration", fmtFixed r.vibration 2),
   ("vibrationDetected", if r.vibrationDetected then "true" else "false"),
   ("waterStatus", quoteStr (statusString r.waterStatus)),
   ("timestamp", quoteStr (toString tMs)),
   ("deviceId", quoteStr "ESP32-WaterSensor"),
   ("status", quoteStr "active")]

/-- Merging a closing quote with the following comma. -/
theorem string_merge_quote_comma (x : String) : x ++ "\"" ++ "," = x ++ "\"," := by
  rw [String.append_assoc]
  have h : ("\"" : String) ++ "," = "\"," := rfl
  rw [h]

/-- Merging the two fixed trailing fields of the wire record. -/
theorem string_merge_tail (x : String) :
    x ++ "\"deviceId\":\"ESP32-WaterSensor\"," ++ "\"status\":\"active\"" =
      x ++ "\"deviceId\":\"ESP32-WaterSensor\",\"status\":\"active\"" := by
  rw [String.append_assoc]
  have h : ("\"deviceId\":\"ESP32-WaterSensor\"," : String) ++ "\"status\":\"active\"" =
      "\"deviceId\":\"ESP32-WaterSensor\",\"status\":\"active\"" := rfl
  rw [h]

/-- A character 48 + k with k < 10 is a decimal digit. -/
theorem char_ofNat_digit (k : ℕ) (hk : k < 10) :
    (Char.ofNat (48 + k)).isDigit = true := by
  interval_cases k <;> decide

/-- `padDigits` emits exactly d characters. -/
theorem padDigits_length (n d : ℕ) : (padDigits n d).length = d := by
  induction d generalizing n with
  | zero => rfl
  | succ d ih => simp [padDigits, ih]

/-- `padDigits` emits only decimal digits. -/
theorem padDigits_digits (n d : ℕ) : (padDigits n d).all Char.isDigit = true := by
  induction d generalizing n with
  | zero => rfl
  | succ d ih =>
      simp only [padDigits, List.all_append, ih, Bool.true_and, List.all_cons,
        List.all_nil, Bool.and_true]
      exact char_ofNat_digit (n % 10) (Nat.mod_lt _ (by norm_num))

/-- C6: the BLE wire record is the JSON object with the ten keys in
exactly the claimed order, pH/turbidity/vibration to 2 decimals,
temperature/tds to 1, the boolean bare, waterStatus and the millisecond
timestamp as strings, the fixed deviceId "ESP32-WaterSensor" and status
"active"; the fixed-width formatter always emits exactly d digits after
the point. -/
theorem claim6_wire (r : Reading) (tMs : ℕ) :
    generateWaterQualityJSON r tMs = renderObj (wireFields r tMs) ∧
    (wireFields r tMs).map Prod.fst =
      ["pH", "temperature", "tds", "turbidity", "vibration",
       "vibrationDetected", "waterStatus", "timestamp", "deviceId", "status"] ∧
    (∀ q : ℚ, ∀ d : ℕ, ∃ pre : String,
      fmtFixed q d =
        pre ++ "." ++ String.mk (padDigits ((round (|q| * (10 : ℚ) ^ d)).toNat) d) ∧
      (padDigits ((round (|q| * (10 : ℚ) ^ d)).toNat) d).length = d ∧
      (padDigits ((round (|q| * (10 : ℚ) ^ d)).toNat) d).all Char.isDigit = true) := by
  refine ⟨?_, rfl, ?_⟩
  · simp [generateWaterQualityJSON, renderObj, renderFields, wireFields, quoteStr,
      string_merge_quote_comma, string_merge_tail, ← String.append_assoc]
  intro q d
  exact ⟨(if q < 0 then "-" else "")
      ++ toString (((round (|q| * (10 : ℚ) ^ d)).toNat) / 10 ^ d),
    rfl, padDigits_length _ _, padDigits_digits _ _⟩

end WaterMonitor
